import Mathlib

/-!
Verification of the Spotify-Sorter frontend logic against its
natural-language specification.  The definitions below are a shallow
embedding of the TypeScript source: pure helper functions mirror the
JavaScript string primitives they replace, React handlers become pure
state-transition functions, and the asynchronous backend calls of the
scan loop are modelled by an explicit outcome oracle.
-/

namespace SpotifySorter

/-! ## JavaScript string primitives

The TypeScript code relies on a handful of JavaScript string
operations.  Each is re-implemented here by structural recursion on the
underlying character list so that every definition reduces inside the
kernel.
-/

/-- Characters of the string accumulated so far are in `acc` (reversed);
splitting a character list on a separator, keeping empty pieces, exactly
as the JavaScript `String.prototype.split` does for a single-character
separator (and as `String.splitOn` does for these inputs). -/
def splitFieldsAux (sep : Char) : List Char → List Char → List String
  | [], acc => [String.mk acc.reverse]
  | c :: rest, acc =>
    if c = sep then String.mk acc.reverse :: splitFieldsAux sep rest []
    else splitFieldsAux sep rest (c :: acc)

/-- JavaScript `s.split(sep)` for a single-character separator. -/
def jsSplit (s : String) (sep : Char) : List String :=
  splitFieldsAux sep s.data []

/-- Numeric value of the longest digit run at the head of the character
list; `none` when the first character is not a decimal digit. -/
def jsLeadingNat (cs : List Char) : Option Nat :=
  let ds := cs.takeWhile Char.isDigit
  if ds.isEmpty then none
  else some (ds.foldl (fun a c => a * 10 + (c.toNat - '0'.toNat)) 0)

/-- JavaScript `parseInt(s)` in base 10: skip leading whitespace, read an
optional sign and then the longest run of decimal digits; `none` stands
for `NaN`. -/
def jsParseInt (s : String) : Option Int :=
  match s.data.dropWhile Char.isWhitespace with
  | '-' :: rest => (jsLeadingNat rest).map (fun n => -(n : Int))
  | '+' :: rest => (jsLeadingNat rest).map (fun n => (n : Int))
  | cs => (jsLeadingNat cs).map (fun n => (n : Int))

/-- JavaScript `parseInt(s) || 0`: `NaN` collapses to `0` (and `0` stays
`0`, so this is exactly `getD 0`). -/
def jsParseIntOr0 (s : String) : Int :=
  (jsParseInt s).getD 0

/-- JavaScript `s.startsWith(pre)`. -/
def jsStartsWith (s pre : String) : Bool :=
  pre.data.isPrefixOf s.data

/-- JavaScript `s.slice`-style character drop; used where the source
calls `hour.replace('*/', '')` under a guard that already established
`hour.startsWith('*/')`, so dropping the first two characters removes
exactly that first occurrence. -/
def jsDropChars (s : String) (n : Nat) : String :=
  String.mk (s.data.drop n)

/-- Substring test on character lists, by structural recursion on the
haystack. -/
def hasSubList (hay needle : List Char) : Bool :=
  match hay with
  | [] => needle.isEmpty
  | _ :: rest => needle.isPrefixOf hay || hasSubList rest needle

/-- JavaScript `s.includes("429")` as used on stringified scan errors. -/
def contains429 (s : String) : Bool :=
  hasSubList s.data "429".data

/-- JavaScript `n.toString().padStart(2, '0')` applied to a `parseInt`
result: `NaN` prints as `"NaN"` (already length 3, so padding leaves it
alone), numbers print in decimal and are left-padded with zeros to two
characters.  Mirrors the `pad` helper of `Schedules.tsx` and
`DesktopSchedulesModal.tsx`. -/
def padJS : Option Int → String
  | none => "NaN"
  | some n =>
    let s := toString n
    String.mk (List.replicate (2 - s.length) '0') ++ s

/-- Template interpolation `${x}` of a possibly-missing numeric value:
a missing array element is `undefined` and prints as `"undefined"`. -/
def jsNumToStr : Option Int → String
  | none => "undefined"
  | some n => toString n

/-! ## C1 — rate-limit classification (`PlaylistSelector.tsx`)

`const remaining = Math.max(0, waitTime)`
`const isSpotifyBan = remaining > 120`
and the rendered label picks between the two headline strings.
-/

/-- `Math.max(0, waitTime)` from `PlaylistSelector.tsx`. -/
def rateLimitRemaining (waitTime : Int) : Int :=
  max 0 waitTime

/-- `remaining > 120` — the duration threshold that separates a local
back-off from an account lock. -/
def isSpotifyBan (waitTime : Int) : Bool :=
  rateLimitRemaining waitTime > 120

/-- The headline label rendered while rate limited. -/
def rateLimitLabel (waitTime : Int) : String :=
  if isSpotifyBan waitTime then "Spotify Account Lock" else "Local Safety Back-off"

/-- C1: the rate-limit classification splits on the 120-second
threshold: a remaining duration of 60 s is labelled as the short local
cooldown, 90000 s as the account lock, 120 s falls on the short
(cooldown) side of the boundary, and in general the lock label appears
exactly for remaining durations strictly greater than 120 s. -/
theorem governor_threshold_split :
    rateLimitLabel 60 = "Local Safety Back-off"
    ∧ rateLimitLabel 90000 = "Spotify Account Lock"
    ∧ rateLimitLabel 120 = "Local Safety Back-off"
    ∧ ∀ w : Int, rateLimitLabel w = "Spotify Account Lock" ↔ 120 < rateLimitRemaining w := by
  refine ⟨by decide, by decide, by decide, ?_⟩
  intro w
  unfold rateLimitLabel isSpotifyBan
  by_cases h : 120 < rateLimitRemaining w
  · simp [h]
  · simp [h]

/-! ## C2 / C7 / C10 — cron simple-frequency decomposition

`parseCronToSimple` and `updateCronFromSimple` appear with identical
logic in `Schedules.tsx` (web frontend) and `DesktopSchedulesModal.tsx`
(desktop); one model covers both.  The five `setSimpleXxx` state setters
become the five fields of `SimpleSchedState`, and the function becomes a
state transformer: the early `return` for fewer than five fields leaves
the state untouched.
-/

/-- The value of the `simpleFreq` selector. -/
inductive SimpleFreq where
  | hourly
  | interval
  | daily
  | weekly
  | monthly
deriving DecidableEq, Repr

/-- The five simple-mode UI fields: `simpleFreq`, `simpleInterval`,
`simpleTime`, `simpleDow`, `simpleDom`. -/
structure SimpleSchedState where
  simpleFreq : SimpleFreq
  simpleInterval : Int
  simpleTime : String
  simpleDow : String
  simpleDom : String
deriving DecidableEq, Repr

/-- First branch guard: `min === '0' && hour === '*' && dom === '*' &&
mon === '*' && dow === '*'`. -/
def hourlyPat (mi hr dm mo dw : String) : Bool :=
  mi == "0" && hr == "*" && dm == "*" && mo == "*" && dw == "*"

/-- Second branch guard: `min === '0' && hour.startsWith('*/') && dom
=== '*' && mon === '*' && dow === '*'`. -/
def intervalPat (mi hr dm mo dw : String) : Bool :=
  mi == "0" && jsStartsWith hr "*/" && dm == "*" && mo == "*" && dw == "*"

/-- Third branch guard (daily): `dom === '*' && mon === '*' && dow ===
'*'`. -/
def dailyPat (_mi _hr dm mo dw : String) : Bool :=
  dm == "*" && mo == "*" && dw == "*"

/-- Fourth branch guard (weekly): `dom === '*' && mon === '*' && dow !==
'*'`. -/
def weeklyPat (_mi _hr dm mo dw : String) : Bool :=
  dm == "*" && mo == "*" && !(dw == "*")

/-- Fifth branch guard (monthly): `dom !== '*' && mon === '*' && dow ===
'*'`. -/
def monthlyPat (_mi _hr dm mo dw : String) : Bool :=
  !(dm == "*") && mo == "*" && dw == "*"

/-- Body of `parseCronToSimple` after the split: destructure the first
five fields, reset `simpleInterval`, `simpleTime`, `simpleDow`,
`simpleDom` to their defaults, then run the branch cascade.  Fewer than
five fields (the fallthrough pattern) returns the state unchanged. -/
def parseCronFields : List String → SimpleSchedState → SimpleSchedState
  | mi :: hr :: dm :: mo :: dw :: _, st =>
    let st0 : SimpleSchedState :=
      { st with simpleInterval := 6, simpleTime := "00:00", simpleDow := "1", simpleDom := "1" }
    if hourlyPat mi hr dm mo dw then
      { st0 with simpleFreq := .hourly }
    else if intervalPat mi hr dm mo dw then
      -- `parseInt(hour.replace('*/', ''))`; under the guard the first
      -- occurrence of "*/" is the two-character prefix, and a NaN result
      -- leaves the freshly-reset interval (6) in place.
      { st0 with simpleFreq := .interval,
                 simpleInterval :=
                   match jsParseInt (jsDropChars hr 2) with
                   | some n => n
                   | none => st0.simpleInterval }
    else if dailyPat mi hr dm mo dw then
      { st0 with simpleFreq := .daily,
                 simpleTime := padJS (jsParseInt hr) ++ ":" ++ padJS (jsParseInt mi) }
    else if weeklyPat mi hr dm mo dw then
      { st0 with simpleFreq := .weekly, simpleDow := dw,
                 simpleTime := padJS (jsParseInt hr) ++ ":" ++ padJS (jsParseInt mi) }
    else if monthlyPat mi hr dm mo dw then
      { st0 with simpleFreq := .monthly, simpleDom := dm,
                 simpleTime := padJS (jsParseInt hr) ++ ":" ++ padJS (jsParseInt mi) }
    else
      -- Fallback: default to daily 00:00 for complex expressions.
      { st0 with simpleFreq := .daily, simpleTime := "00:00" }
  | _, st => st

/-- `parseCronToSimple(cron)`: split on spaces and process the fields. -/
def parseCronToSimple (cron : String) (st : SimpleSchedState) : SimpleSchedState :=
  parseCronFields (jsSplit cron ' ') st

/-- `updateCronFromSimple`: re-encode the simple form as a five-field
cron string.  `[h, m] = simpleTime.split(':').map(n => parseInt(n) ||
0)` makes a missing second component `undefined`.  The initial
`'* * * * *'` value of the source is dead: the `switch` covers every
frequency. -/
def updateCronFromSimple (st : SimpleSchedState) : String :=
  let nums := (jsSplit st.simpleTime ':').map (fun n => jsParseIntOr0 n)
  let h := jsNumToStr (nums.get? 0)
  let m := jsNumToStr (nums.get? 1)
  match st.simpleFreq with
  | .hourly => "0 * * * *"
  | .interval => "0 */" ++ toString st.simpleInterval ++ " * * *"
  | .daily => m ++ " " ++ h ++ " * * *"
  | .weekly => m ++ " " ++ h ++ " * * " ++ st.simpleDow
  | .monthly => m ++ " " ++ h ++ " " ++ st.simpleDom ++ " * *"

/-- C2: from any prior simple-mode state, `"0 */6 * * *"` parses to the
`interval` frequency with interval 6, and re-encoding the resulting
simple form reproduces the identical cron string. -/
theorem cron_interval6_roundtrip :
    ∀ st : SimpleSchedState,
      (parseCronToSimple "0 */6 * * *" st).simpleFreq = .interval
      ∧ (parseCronToSimple "0 */6 * * *" st).simpleInterval = 6
      ∧ updateCronFromSimple (parseCronToSimple "0 */6 * * *" st) = "0 */6 * * *" := by
  intro st
  exact ⟨rfl, rfl, rfl⟩

/-- Helper: with fewer than five fields, `parseCronFields` hits the
fallthrough pattern and leaves the state untouched. -/
theorem parseCronFields_short (l : List String) (st : SimpleSchedState)
    (h : l.length < 5) : parseCronFields l st = st := by
  match l with
  | [] => rfl
  | [_] => rfl
  | [_, _] => rfl
  | [_, _, _] => rfl
  | [_, _, _, _] => rfl
  | _ :: _ :: _ :: _ :: _ :: _ =>
    simp only [List.length_cons] at h
    omega

/-- C7: a cron expression whose five fields match none of the five
simple-frequency branch guards (hourly, interval, daily, weekly,
monthly) falls back to the daily frequency at time 00:00. -/
theorem cron_complex_fallback_daily (cron : String) (st : SimpleSchedState)
    (mi hr dm mo dw : String) (rest : List String)
    (hsplit : jsSplit cron ' ' = mi :: hr :: dm :: mo :: dw :: rest)
    (h1 : hourlyPat mi hr dm mo dw = false)
    (h2 : intervalPat mi hr dm mo dw = false)
    (h3 : dailyPat mi hr dm mo dw = false)
    (h4 : weeklyPat mi hr dm mo dw = false)
    (h5 : monthlyPat mi hr dm mo dw = false) :
    (parseCronToSimple cron st).simpleFreq = .daily
    ∧ (parseCronToSimple cron st).simpleTime = "00:00" := by
  unfold parseCronToSimple
  rw [hsplit]
  simp [parseCronFields, h1, h2, h3, h4, h5]

/-- Witness for C7 at the concrete expression `"0 1 2 3 4"` (day-of-month,
month and day-of-week all restricted, matching no simple pattern). -/
theorem cron_complex_fallback_daily_witness :
    (parseCronToSimple "0 1 2 3 4" ⟨.hourly, 3, "07:30", "2", "5"⟩).simpleFreq = .daily
    ∧ (parseCronToSimple "0 1 2 3 4" ⟨.hourly, 3, "07:30", "2", "5"⟩).simpleTime = "00:00" :=
  cron_complex_fallback_daily "0 1 2 3 4" ⟨.hourly, 3, "07:30", "2", "5"⟩
    "0" "1" "2" "3" "4" [] rfl rfl rfl rfl rfl rfl

/-- C10: with fewer than five space-separated fields,
`parseCronToSimple` returns early, leaving every simple-mode field
(frequency, interval, time, day-of-week, day-of-month) unchanged. -/
theorem cron_short_input_state_unchanged (cron : String) (st : SimpleSchedState)
    (h : (jsSplit cron ' ').length < 5) :
    parseCronToSimple cron st = st :=
  parseCronFields_short (jsSplit cron ' ') st h

/-- Witness for C10 at the four-field input `"15 3 * *"` and a
non-default simple state. -/
theorem cron_short_input_state_unchanged_witness :
    parseCronToSimple "15 3 * *" ⟨.weekly, 4, "09:45", "3", "17"⟩
      = ⟨.weekly, 4, "09:45", "3", "17"⟩ :=
  cron_short_input_state_unchanged "15 3 * *" ⟨.weekly, 4, "09:45", "3", "17"⟩ (by decide)

/-! ## Store model (`src/store.ts`)

The zustand store becomes a record of the fields the modelled actions
read or write; each action becomes a pure function from state (plus its
arguments) to state.  Fields the modelled code never touches (auth,
playlist metadata, search filters) are omitted.  `generateId()` draws a
random id in the source; the fresh id is passed as an explicit argument
here.
-/

/-- A sort rule entry: `{id, criteria, descending}`. -/
structure SortRule where
  id : String
  criteria : String
  descending : Bool
deriving DecidableEq, Repr

/-- The optional argument of `addSortRule` (a `Partial<SortRule>`);
missing fields are `none`. -/
structure SortRulePatch where
  id : Option String
  criteria : Option String
  descending : Option Bool
deriving DecidableEq, Repr

/-- JavaScript `rule?.criteria || 'Artist'`: `undefined` and the empty
string are falsy and collapse to `"Artist"`. -/
def criteriaOrArtist : Option String → String
  | none => "Artist"
  | some c => if c = "" then "Artist" else c

/-- JavaScript `rule?.descending ?? false`. -/
def descendingOrFalse : Option Bool → Bool
  | none => false
  | some b => b

/-- The modelled slice of the zustand application store. -/
structure AppStateM where
  sortEnabled : Bool
  sortRules : List SortRule
  dupesEnabled : Bool
  dupePreference : String
  versionEnabled : Bool
  versionPreference : String
  selectedPlaylistIds : List String
  isProcessing : Bool
  statusText : String
  shouldCancel : Bool
deriving DecidableEq, Repr

/-- `addSortRule`: no-op at 8 or more rules, otherwise append a new rule
whose id is freshly generated (`genId` stands for the `generateId()`
draw; the `id` field of the patch is ignored, as in the source). -/
def addSortRule (st : AppStateM) (genId : String) (rule : Option SortRulePatch) : AppStateM :=
  if st.sortRules.length ≥ 8 then st
  else
    { st with sortRules := st.sortRules ++
        [⟨genId, criteriaOrArtist (rule.bind (·.criteria)),
          descendingOrFalse (rule.bind (·.descending))⟩] }

/-- `removeSortRule`: no-op at 1 or fewer rules, otherwise drop every
rule carrying the given id. -/
def removeSortRule (st : AppStateM) (id : String) : AppStateM :=
  if st.sortRules.length ≤ 1 then st
  else { st with sortRules := st.sortRules.filter (fun r => !(r.id == id)) }

/-- `updateSortRule`: merge the patch into every rule with the given id
(`{...r, ...updates}` — present patch fields overwrite, including the
id). -/
def updateSortRule (st : AppStateM) (id : String) (u : SortRulePatch) : AppStateM :=
  { st with sortRules := st.sortRules.map (fun r =>
      if r.id == id then
        ⟨u.id.getD r.id, u.criteria.getD r.criteria, u.descending.getD r.descending⟩
      else r) }

/-- `reorderSortRules`: replace the rule list verbatim with the
argument. -/
def reorderSortRules (st : AppStateM) (newOrder : List SortRule) : AppStateM :=
  { st with sortRules := newOrder }

/-- The store initial state; the four default rule ids come from random
`generateId()` draws and are passed in as parameters. -/
def initialState (i1 i2 i3 i4 : String) : AppStateM :=
  { sortEnabled := true
    sortRules :=
      [⟨i1, "Release Date", true⟩, ⟨i2, "Artist", false⟩,
       ⟨i3, "Album", false⟩, ⟨i4, "Track Name", false⟩]
    dupesEnabled := false
    dupePreference := "Keep Oldest (Release Date)"
    versionEnabled := false
    versionPreference := "Artist Only: Oldest Version"
    selectedPlaylistIds := []
    isProcessing := false
    statusText := "Ready"
    shouldCancel := false }

/-- A sort-rule store operation, for reasoning about operation
sequences. -/
inductive SortRuleOp where
  | add (genId : String) (rule : Option SortRulePatch)
  | remove (id : String)
  | update (id : String) (u : SortRulePatch)
deriving Repr

/-- Apply one store operation. -/
def applySortRuleOp (st : AppStateM) : SortRuleOp → AppStateM
  | .add g r => addSortRule st g r
  | .remove i => removeSortRule st i
  | .update i u => updateSortRule st i u

/-- Apply a sequence of store operations, first to last. -/
def applySortRuleOps (st : AppStateM) (ops : List SortRuleOp) : AppStateM :=
  ops.foldl applySortRuleOp st

/-- Helper: when the rule ids are pairwise distinct, at most one rule
matches a given id. -/
theorem countP_rule_id_le_one (l : List SortRule) (id : String)
    (h : (l.map (·.id)).Nodup) : l.countP (fun r => r.id == id) ≤ 1 := by
  have h1 : (l.map (·.id)).count id ≤ 1 := List.nodup_iff_count_le_one.mp h id
  simpa [List.count, List.countP_map, Function.comp] using h1

/-- Helper: length of the kept rules after removing one id. -/
theorem length_filter_ne_id (l : List SortRule) (id : String) :
    (l.filter (fun r => !(r.id == id))).length
      = l.length - l.countP (fun r => r.id == id) := by
  induction l with
  | nil => rfl
  | cons r rest ih =>
    by_cases hr : r.id == id
    · simp [List.countP_cons, hr, ih]
    · simp [List.countP_cons, hr, ih]
      have := List.countP_le_length (p := fun r => r.id == id) (l := rest)
      omega

/-- C8 (corrected) counterexample state: one rule in the list. -/
def c8State : AppStateM :=
  { initialState "a" "b" "c" "d" with sortRules := [⟨"r1", "Artist", false⟩] }

/-- Counterexample for C8: the store action `reorderSortRules` replaces
the rule list verbatim with its argument, so reordering with the empty
list empties a previously non-empty rule set. -/
theorem reorder_can_empty_rules :
    c8State.sortRules ≠ [] ∧ (reorderSortRules c8State []).sortRules = [] :=
  ⟨by decide, rfl⟩

/-- C8 (amended): with pairwise-distinct rule ids, removal never makes a
non-empty rule list empty, removing the last remaining rule is a no-op,
and a reorder that permutes the current rules keeps the list non-empty;
only `reorderSortRules` applied to an arbitrary (for example empty) list
can empty the rule set. -/
theorem removal_keeps_rules_nonempty (st : AppStateM) (id : String)
    (newOrder : List SortRule)
    (hne : st.sortRules ≠ [])
    (hnodup : (st.sortRules.map (·.id)).Nodup) :
    (removeSortRule st id).sortRules ≠ []
    ∧ (st.sortRules.length = 1 → removeSortRule st id = st)
    ∧ (newOrder.Perm st.sortRules → (reorderSortRules st newOrder).sortRules ≠ []) := by
  refine ⟨?_, ?_, ?_⟩
  · unfold removeSortRule
    by_cases hlen : st.sortRules.length ≤ 1
    · simp [hlen, hne]
    · simp only [hlen, if_false]
      have hc := countP_rule_id_le_one st.sortRules id hnodup
      have hf := length_filter_ne_id st.sortRules id
      intro hemp
      rw [hemp] at hf
      simp at hf
      omega
  · intro h1
    unfold removeSortRule
    simp [h1]
  · intro hperm
    unfold reorderSortRules
    simp only
    intro hemp
    have hlen := hperm.length_eq
    rw [hemp] at hlen
    exact hne (List.length_eq_zero.mp hlen.symm)

/-- Witness for C8 (amended) at a one-rule state and the identity
permutation. -/
theorem removal_keeps_rules_nonempty_witness :
    (removeSortRule c8State "r1").sortRules ≠ []
    ∧ removeSortRule c8State "r1" = c8State
    ∧ (reorderSortRules c8State [⟨"r1", "Artist", false⟩]).sortRules ≠ [] :=
  have h := removal_keeps_rules_nonempty c8State "r1" [⟨"r1", "Artist", false⟩]
    (by decide) (by decide)
  ⟨h.1, h.2.1 (by decide), h.2.2 (List.Perm.refl _)⟩

/-- C9: `addSortRule` is a no-op on any state that already has 8 or more
rules, and consequently no sequence of add / remove / update operations
started from the initial 4-rule state ever grows the list beyond 8. -/
theorem sort_rules_capped_at_eight :
    (∀ (st : AppStateM) (genId : String) (rule : Option SortRulePatch),
        8 ≤ st.sortRules.length → addSortRule st genId rule = st)
    ∧ ∀ (i1 i2 i3 i4 : String) (ops : List SortRuleOp),
        (applySortRuleOps (initialState i1 i2 i3 i4) ops).sortRules.length ≤ 8 := by
  constructor
  · intro st g r h
    unfold addSortRule
    simp [h]
  · intro i1 i2 i3 i4 ops
    have key : ∀ (ops : List SortRuleOp) (st : AppStateM), st.sortRules.length ≤ 8 →
        (applySortRuleOps st ops).sortRules.length ≤ 8 := by
      intro ops
      induction ops with
      | nil => intro st h; exact h
      | cons op rest ih =>
        intro st h
        refine ih _ ?_
        cases op with
        | add g r =>
          simp only [applySortRuleOps, applySortRuleOp, addSortRule]
          by_cases hc : st.sortRules.length ≥ 8
          · simp [hc, h]
          · simp [hc]
            omega
        | remove i =>
          simp only [applySortRuleOps, applySortRuleOp, removeSortRule]
          by_cases hc : st.sortRules.length ≤ 1
          · simp [hc, h]
          · simp only [hc, if_false]
            have := List.length_filter_le (fun r => !(r.id == i)) st.sortRules
            omega
        | update i u =>
          simpa [applySortRuleOps, applySortRuleOp, updateSortRule] using h
    refine key ops _ ?_
    simp [initialState]

/-- C9 witness state: eight rules already present. -/
def c9Full : AppStateM :=
  { initialState "a" "b" "c" "d" with sortRules :=
      [⟨"r1", "Artist", false⟩, ⟨"r2", "Album", false⟩, ⟨"r3", "Track Name", false⟩,
       ⟨"r4", "Release Date", true⟩, ⟨"r5", "Artist", true⟩, ⟨"r6", "Album", true⟩,
       ⟨"r7", "Track Name", true⟩, ⟨"r8", "Release Date", false⟩] }

/-- Witness for C9: adding to an 8-rule state changes nothing, and a
concrete operation sequence from the initial state stays within the
cap. -/
theorem sort_rules_capped_at_eight_witness :
    addSortRule c9Full "g" none = c9Full
    ∧ (applySortRuleOps (initialState "a" "b" "c" "d")
        [.add "e" none, .add "f" none, .add "g" none, .add "h" none,
         .add "i" none, .remove "a"]).sortRules.length ≤ 8 :=
  ⟨sort_rules_capped_at_eight.1 c9Full "g" none (by decide),
   sort_rules_capped_at_eight.2 "a" "b" "c" "d"
     [.add "e" none, .add "f" none, .add "g" none, .add "h" none,
      .add "i" none, .remove "a"]⟩

/-! ## C6 — run validation (`App.tsx`, `handleRunProcess`)

The handler becomes a pure function from store state to the updated
store state paired with a flag telling whether `performScanLoop` was
started. -/

/-- The validation message surfaced when sorting is on with no rules. -/
def noSortRulesMsg : String :=
  "No sort rules defined! Please add rules or disable sorting."

/-- `handleRunProcess`: return silently on an empty selection, reset the
cancellation flag, reject with a status message when sorting is enabled
with an empty rule list, otherwise set the processing flag and start the
scan loop (the returned boolean). -/
def handleRunProcess (st : AppStateM) : AppStateM × Bool :=
  if st.selectedPlaylistIds.length = 0 then (st, false)
  else
    let st1 := { st with shouldCancel := false }
    if st1.sortEnabled && st1.sortRules.length == 0 then
      ({ st1 with statusText := noSortRulesMsg }, false)
    else
      ({ st1 with isProcessing := true }, true)

/-- C6 (corrected) counterexample state: sorting enabled, no rules, and
no playlist selected. -/
def c6NoSelection : AppStateM :=
  { initialState "a" "b" "c" "d" with sortRules := [] }

/-- Counterexample for C6: with sorting enabled and an empty rule list
but no playlist selected, `handleRunProcess` returns before the
validation check, so the state is returned unchanged and no status
message is surfaced. -/
theorem run_validation_silent_without_selection :
    c6NoSelection.sortEnabled = true ∧ c6NoSelection.sortRules = []
    ∧ handleRunProcess c6NoSelection = (c6NoSelection, false)
    ∧ (handleRunProcess c6NoSelection).1.statusText ≠ noSortRulesMsg :=
  ⟨rfl, rfl, rfl, by decide⟩

/-- C6 (amended): whenever sorting is enabled and the sort-rule list is
empty, triggering a run starts no scan and leaves the processing flag
untouched; when additionally at least one playlist is selected, the
validation status message is surfaced.  (With an empty selection the
trigger returns silently, before the validation.) -/
theorem empty_rules_run_rejected (st : AppStateM)
    (hsort : st.sortEnabled = true) (hrules : st.sortRules = []) :
    (handleRunProcess st).2 = false
    ∧ (handleRunProcess st).1.isProcessing = st.isProcessing
    ∧ (st.selectedPlaylistIds ≠ [] → (handleRunProcess st).1.statusText = noSortRulesMsg) := by
  unfold handleRunProcess
  by_cases hsel : st.selectedPlaylistIds.length = 0
  · refine ⟨by simp [hsel], by simp [hsel], ?_⟩
    intro hne
    exact absurd (List.length_eq_zero.mp hsel) hne
  · simp [hsel, hsort, hrules]

/-- C6 (amended) witness state: sorting enabled, no rules, one playlist
selected. -/
def c6WithSelection : AppStateM :=
  { initialState "a" "b" "c" "d" with sortRules := [], selectedPlaylistIds := ["p1"] }

/-- Witness for C6 (amended) at a state with one selected playlist. -/
theorem empty_rules_run_rejected_witness :
    (handleRunProcess c6WithSelection).2 = false
    ∧ (handleRunProcess c6WithSelection).1.isProcessing = c6WithSelection.isProcessing
    ∧ (handleRunProcess c6WithSelection).1.statusText = noSortRulesMsg :=
  have h := empty_rules_run_rejected c6WithSelection rfl rfl
  ⟨h.1, h.2.1, h.2.2 (by decide)⟩

/-! ## C3 / C5 — the multi-playlist scan loop (`App.tsx`,
`performScanLoop`)

The `for` loop over the selected playlist ids becomes structural
recursion over the id list.  The awaited backend work inside the `try`
block (the `scan_playlist` call, and the auto-apply that follows it) is
modelled by an oracle giving, per playlist, either the returned scan
results or the thrown error string; the cancellation flag read from the
store at each iteration is an exogenous per-iteration input. -/

/-- Scan statistics of a `ScanResult`. -/
structure ScanStats where
  original_count : Nat
  duplicates_removed : Nat
  versions_replaced : Nat
  sorted : Bool
deriving DecidableEq, Repr

/-- One reviewable change (display-only optional fields omitted). -/
structure ReviewChange where
  id : String
  changeType : String
deriving DecidableEq, Repr

/-- The per-playlist result of `scan_playlist`. -/
structure ScanResult where
  playlist_id : String
  name : String
  changes : List ReviewChange
  stats : ScanStats
deriving DecidableEq, Repr

/-- Outcome of the awaited backend calls for one playlist: the scan
result list, or the stringified thrown error. -/
inductive ScanOutcome where
  | ok (results : List ScanResult)
  | err (msg : String)
deriving DecidableEq, Repr

/-- Observable effects of one run of the scan loop. -/
structure ScanLoopResult where
  /-- Playlists for which `scan_playlist` was invoked, in order; a
  playlist appears once per scan attempt. -/
  attempted : List String
  /-- Results pushed onto the review queue. -/
  reviewQueue : List ScanResult
  /-- Playlists whose sort was auto-applied (no changes to review). -/
  appliedSorts : List String
  /-- Non-rate-limit failures logged, as (playlist id, error message). -/
  errorLog : List (String × String)
  /-- Milliseconds paused after rate-limit (429) errors, in order. -/
  waits : List Nat
  /-- Whether the loop stopped at the cancellation check. -/
  cancelled : Bool
deriving DecidableEq, Repr

/-- The empty loop result. -/
def emptyScanLoop : ScanLoopResult :=
  ⟨[], [], [], [], [], false⟩

/-- One iteration of the loop body for playlist `p`, combined with the
effects `tail` of the remaining iterations. -/
def processPlaylist (sortEnabled : Bool) (oracle : String → ScanOutcome)
    (p : String) (tail : ScanLoopResult) : ScanLoopResult :=
  match oracle p with
  | .ok results =>
    match results with
    | [] => { tail with attempted := p :: tail.attempted }
    | r :: _ =>
      if r.changes.length > 0 then
        { tail with attempted := p :: tail.attempted, reviewQueue := r :: tail.reviewQueue }
      else if r.stats.sorted && sortEnabled then
        { tail with attempted := p :: tail.attempted,
                    appliedSorts := r.playlist_id :: tail.appliedSorts }
      else
        { tail with attempted := p :: tail.attempted }
  | .err e =>
    if contains429 e then
      -- `Rate limit hit (429). Pausing for 5 seconds...` — a fixed
      -- 5000 ms pause, after which the loop moves on to the next id.
      { tail with attempted := p :: tail.attempted, waits := 5000 :: tail.waits }
    else
      { tail with attempted := p :: tail.attempted, errorLog := (p, e) :: tail.errorLog }

/-- The loop, indexed by the iteration counter consulted by the
cancellation check. -/
def performScanLoopAux (cancel : Nat → Bool) (sortEnabled : Bool)
    (oracle : String → ScanOutcome) : Nat → List String → ScanLoopResult
  | _, [] => emptyScanLoop
  | i, p :: rest =>
    if cancel i then { emptyScanLoop with cancelled := true }
    else processPlaylist sortEnabled oracle p
      (performScanLoopAux cancel sortEnabled oracle (i + 1) rest)

/-- `performScanLoop(playlistIds)` from `App.tsx`. -/
def performScanLoop (cancel : Nat → Bool) (sortEnabled : Bool)
    (oracle : String → ScanOutcome) (playlistIds : List String) : ScanLoopResult :=
  performScanLoopAux cancel sortEnabled oracle 0 playlistIds

/-- The cancellation schedule of an uninterrupted run. -/
def neverCancel : Nat → Bool := fun _ => false

/-- Helper: the loop body always records exactly one attempt for its
playlist. -/
theorem processPlaylist_attempted (se : Bool) (oracle : String → ScanOutcome)
    (p : String) (t : ScanLoopResult) :
    (processPlaylist se oracle p t).attempted = p :: t.attempted := by
  unfold processPlaylist
  cases oracle p with
  | ok results =>
    cases results with
    | nil => rfl
    | cons r rs =>
      by_cases h : r.changes.length > 0
      · simp [h]
      · by_cases h2 : r.stats.sorted && se
        · simp [h, h2]
        · simp [h, h2]
  | err e =>
    by_cases h : contains429 e
    · simp [h]
    · simp [h]

/-- Helper: the loop body logs an error exactly for a non-429 failure,
and attributes it to its own playlist. -/
theorem processPlaylist_errorLog (se : Bool) (oracle : String → ScanOutcome)
    (p : String) (t : ScanLoopResult) :
    (processPlaylist se oracle p t).errorLog =
      (match oracle p with
       | .err e => if contains429 e then t.errorLog else (p, e) :: t.errorLog
       | .ok _ => t.errorLog) := by
  unfold processPlaylist
  cases oracle p with
  | ok results =>
    cases results with
    | nil => rfl
    | cons r rs =>
      by_cases h : r.changes.length > 0
      · simp [h]
      · by_cases h2 : r.stats.sorted && se
        · simp [h, h2]
        · simp [h, h2]
  | err e =>
    by_cases h : contains429 e
    · simp [h]
    · simp [h]

/-- Helper: the loop body records a 5000 ms pause exactly for a 429
failure. -/
theorem processPlaylist_waits (se : Bool) (oracle : String → ScanOutcome)
    (p : String) (t : ScanLoopResult) :
    (processPlaylist se oracle p t).waits =
      (match oracle p with
       | .err e => if contains429 e then 5000 :: t.waits else t.waits
       | .ok _ => t.waits) := by
  unfold processPlaylist
  cases oracle p with
  | ok results =>
    cases results with
    | nil => rfl
    | cons r rs =>
      by_cases h : r.changes.length > 0
      · simp [h]
      · by_cases h2 : r.stats.sorted && se
        · simp [h, h2]
        · simp [h, h2]
  | err e =>
    by_cases h : contains429 e
    · simp [h]
    · simp [h]

/-- Whether the outcome for a playlist is a rate-limit (429) error. -/
def outcomeIs429 (o : ScanOutcome) : Bool :=
  match o with
  | .err e => contains429 e
  | .ok _ => false

/-- The per-playlist error-log entry a run produces: a non-429 failure
is logged against its own playlist, everything else logs nothing. -/
def expectedErrorEntry (oracle : String → ScanOutcome) (p : String) :
    Option (String × String) :=
  match oracle p with
  | .err e => if contains429 e then none else some (p, e)
  | .ok _ => none

/-- Helper: an uninterrupted run of the scan loop attempts every
playlist exactly as listed, logs each non-429 failure against its own
playlist, and pauses a fixed 5000 ms once per 429 failure. -/
theorem performScanLoopAux_no_cancel (cancel : Nat → Bool) (se : Bool)
    (oracle : String → ScanOutcome) (hc : ∀ j, cancel j = false) :
    ∀ (ids : List String) (i : Nat),
      (performScanLoopAux cancel se oracle i ids).attempted = ids
      ∧ (performScanLoopAux cancel se oracle i ids).errorLog
          = ids.filterMap (expectedErrorEntry oracle)
      ∧ (performScanLoopAux cancel se oracle i ids).waits
          = List.replicate (ids.countP (fun p => outcomeIs429 (oracle p))) 5000 := by
  intro ids
  induction ids with
  | nil => intro i; exact ⟨rfl, rfl, rfl⟩
  | cons p rest ih =>
    intro i
    obtain ⟨ha, he, hw⟩ := ih (i + 1)
    unfold performScanLoopAux
    rw [hc i]
    simp only [Bool.false_eq_true, if_false]
    refine ⟨?_, ?_, ?_⟩
    · rw [processPlaylist_attempted, ha]
    · rw [processPlaylist_errorLog, he]
      unfold expectedErrorEntry
      cases hop : oracle p with
      | ok results => simp [List.filterMap_cons, hop]
      | err e =>
        by_cases h4 : contains429 e
        · simp [List.filterMap_cons, hop, h4]
        · simp [List.filterMap_cons, hop, h4]
    · rw [processPlaylist_waits, hw]
      cases hop : oracle p with
      | ok results => simp [List.countP_cons, outcomeIs429, hop]
      | err e =>
        by_cases h4 : contains429 e
        · simp [List.countP_cons, outcomeIs429, hop, h4, List.replicate_succ]
        · simp [List.countP_cons, outcomeIs429, hop, h4]

/-- C5: with cancellation never requested, a failure while scanning one
playlist does not abort the batch: every playlist in the list is still
scanned (in order), and each non-rate-limit failure is logged against
the failing playlist only. -/
theorem scan_error_does_not_abort_batch (cancel : Nat → Bool) (se : Bool)
    (oracle : String → ScanOutcome) (ids : List String)
    (hc : ∀ j, cancel j = false) :
    (performScanLoop cancel se oracle ids).attempted = ids
    ∧ (performScanLoop cancel se oracle ids).errorLog
        = ids.filterMap (expectedErrorEntry oracle) :=
  have h := performScanLoopAux_no_cancel cancel se oracle hc ids 0
  ⟨h.1, h.2.1⟩

/-- C5 witness inputs: the middle playlist fails, its neighbours
succeed. -/
def c5Oracle : String → ScanOutcome := fun p =>
  if p == "p2" then .err "Scan failed: boom" else .ok []

/-- C5 witness playlist list. -/
def c5Ids : List String := ["p1", "p2", "p3"]

/-- Witness for C5: a failure on `p2` still scans `p3`, and the only
logged failure names `p2`. -/
theorem scan_error_does_not_abort_batch_witness :
    (performScanLoop neverCancel true c5Oracle c5Ids).attempted = ["p1", "p2", "p3"]
    ∧ (performScanLoop neverCancel true c5Oracle c5Ids).errorLog
        = [("p2", "Scan failed: boom")] :=
  have h := scan_error_does_not_abort_batch neverCancel true c5Oracle c5Ids (fun _ => rfl)
  ⟨h.1, h.2.trans rfl⟩

/-- C3 counterexample inputs: every scan fails with a 429 whose message
carries a remote retry-after of 30 seconds. -/
def c3Oracle : String → ScanOutcome := fun _ =>
  .err "API Error 429: retry after 30 seconds"

/-- C3 counterexample playlist list. -/
def c3Ids : List String := ["p1", "p2"]

/-- Counterexample for C3: on a 429 with a remote retry-after of 30
seconds the loop records a fixed 5000 ms pause (not the 30000 ms the
claim requires), and the rate-limited playlist is scanned exactly once —
it is never re-attempted, and its scan produces no queued review, no
applied sort and no log entry: the playlist scan is abandoned for the
run. -/
theorem rate_limit_fixed_pause_counterexample :
    performScanLoop neverCancel true c3Oracle c3Ids
      = ⟨["p1", "p2"], [], [], [], [5000, 5000], false⟩
    ∧ (5000 : Nat) ≠ 30 * 1000
    ∧ (performScanLoop neverCancel true c3Oracle c3Ids).attempted.count "p1" = 1 :=
  ⟨rfl, by decide, rfl⟩

/-- C3 (amended): on a 429 during a scan the loop pauses for a fixed
5000 ms — the remote retry-after value is ignored — and then continues
with the next playlist: every playlist is attempted exactly as listed
(so the rate-limited call is not re-attempted within the run), with one
5000 ms pause per rate-limited playlist. -/
theorem rate_limit_pause_fixed_and_continue (cancel : Nat → Bool) (se : Bool)
    (oracle : String → ScanOutcome) (ids : List String)
    (hc : ∀ j, cancel j = false) :
    (performScanLoop cancel se oracle ids).attempted = ids
    ∧ (performScanLoop cancel se oracle ids).waits
        = List.replicate (ids.countP (fun p => outcomeIs429 (oracle p))) 5000 :=
  have h := performScanLoopAux_no_cancel cancel se oracle hc ids 0
  ⟨h.1, h.2.2⟩

/-- Witness for C3 (amended) at the counterexample inputs. -/
theorem rate_limit_pause_fixed_and_continue_witness :
    (performScanLoop neverCancel true c3Oracle c3Ids).attempted = ["p1", "p2"]
    ∧ (performScanLoop neverCancel true c3Oracle c3Ids).waits = [5000, 5000] :=
  have h := rate_limit_pause_fixed_and_continue neverCancel true c3Oracle c3Ids (fun _ => rfl)
  ⟨h.1, h.2.trans rfl⟩

/-! ## C4 — run-now trigger guard (`Dashboard.tsx`, `handleRunNow`)

The handler becomes a function of the `runningId` state and the
triggered config id, returning the new `runningId`, whether the POST
`/api/configs/:id/run` request was issued, and the run-history entries
the handler itself records (the handler records none: history entries
come from the server, which is only reached through the POST). -/

/-- Observable outcome of one `handleRunNow` invocation. -/
structure RunNowOutcome where
  runningId : Option String
  fetchIssued : Bool
  historyAdded : List String
deriving DecidableEq, Repr

/-- JavaScript truthiness of a nullable string: `null` and `""` are
falsy. -/
def jsTruthyStr : Option String → Bool
  | none => false
  | some s => !(s == "")

/-- `handleRunNow(id)`: `if (runningId) return` — while any run is
in-flight the trigger returns immediately, issuing no request and
recording nothing; otherwise `runningId` is set and the run request is
issued. -/
def handleRunNow (runningId : Option String) (id : String) : RunNowOutcome :=
  if jsTruthyStr runningId then ⟨runningId, false, []⟩
  else ⟨some id, true, []⟩

/-- Counterexample for C4: a run-now trigger for `cfgA` arriving while a
run for `cfgA` is still in flight issues no request — but contrary to
the claim it records no skipped/failed run-history entry either: it is
silently discarded. -/
theorem concurrent_trigger_not_recorded :
    (handleRunNow (some "cfgA") "cfgA").fetchIssued = false
    ∧ (handleRunNow (some "cfgA") "cfgA").historyAdded = []
    ∧ (handleRunNow (some "cfgA") "cfgA").runningId = some "cfgA" :=
  ⟨rfl, rfl, rfl⟩

/-- C4 (amended): a run-now trigger arriving while any prior run is
still in flight (same config or not) starts no new run — no request is
issued and the in-flight marker is unchanged — and the skipped trigger
is silently discarded: it is neither queued nor recorded as a
run-history entry. -/
theorem concurrent_trigger_skipped_silently (runningId : Option String) (id : String)
    (h : jsTruthyStr runningId = true) :
    handleRunNow runningId id = ⟨runningId, false, []⟩ := by
  unfold handleRunNow
  rw [h]
  simp

/-- Witness for C4 (amended): a trigger for `cfgB` while `cfgA` runs. -/
theorem concurrent_trigger_skipped_silently_witness :
    handleRunNow (some "cfgA") "cfgB" = ⟨some "cfgA", false, []⟩ :=
  concurrent_trigger_skipped_silently (some "cfgA") "cfgB" rfl

end SpotifySorter
